import Mathlib

/-!
Shallow embedding of the transport core of the shtrihm-fr driver
(src/shtrihmfr/kkt.py, src/shtrihmfr/utils.py, src/shtrihmfr/conf.py).

Bytes are modelled as `Nat` (values below 256 on the wire), byte strings as
`List Nat`.  The serial channel (`self.conn`) is modelled by an explicit
state `KState`: `inp` is the script of results of the successive
`conn.read(n)` calls (each entry is the chunk of bytes that call returns,
possibly empty on timeout; an exhausted script means every further read
times out and returns nothing), and `trace` records the externally visible
effects (writes, flushes, sleeps, disconnects) in order.  Python
exceptions become the `Outcome.err` constructor carrying an `Err` value;
the state at the moment of the raise is kept alongside.
-/

namespace ShtrihM

/-- Control bytes, from kkt.py lines 33-36. -/
def ENQ : Nat := 0x05

/-- Start of text marker, kkt.py line 34. -/
def STX : Nat := 0x02

/-- Positive acknowledgement, kkt.py line 35. -/
def ACK : Nat := 0x06

/-- Negative acknowledgement, kkt.py line 36. -/
def NAK : Nat := 0x15

/-- conf.py line 35. -/
def MAX_ATTEMPT : Nat := 12

/-- conf.py line 36: 0.05 seconds, exactly as a rational. -/
def MIN_TIMEOUT : ℚ := 1/20

/-- One externally visible effect on the serial channel. -/
inductive Event
  | write (bs : List Nat)
  | flush
  | sleep (t : ℚ)
  | disconnect
deriving DecidableEq, Repr

/-- Python exceptions raised by the transport core.
`conn` is `ConnectionError`; `kktLen` and `kktSum` are the two
`KktError(msg)` raises inside `BaseKKT.read` (carrying the numbers used to
format the message); `kktCode` is `KktError(int)` whose constructor keeps
the numeric code in `self.value` (the human text looked up in the `BUGS`
table of the protocol module is irrelevant here); `typeError` is Python's
own `TypeError`, as raised by `ord` applied to an empty string. -/
inductive Err
  | conn
  | kktLen (dataLength : Int) (received : Nat)
  | kktSum (computed : Nat) (received : List Nat)
  | kktCode (code : Nat)
  | typeError
deriving DecidableEq, Repr

/-- The modelled channel state: pending read results and the effect trace. -/
structure KState where
  inp : List (List Nat)
  trace : List Event
deriving DecidableEq, Repr

/-- Result of a fallible stateful step. -/
inductive Outcome (α : Type)
  | ok (a : α)
  | err (e : Err)
deriving DecidableEq, Repr

/-- Result together with the state at the end (also on error). -/
abbrev Res (α : Type) := Outcome α × KState

/-- `self._write(bs)` (kkt.py line 236): record a write event. -/
def writeB (bs : List Nat) (s : KState) : KState :=
  { s with trace := s.trace ++ [Event.write bs] }

/-- `self._flush()` (kkt.py line 240): record a flush event. -/
def flushB (s : KState) : KState :=
  { s with trace := s.trace ++ [Event.flush] }

/-- `time.sleep(t)`: record a sleep event. -/
def sleepB (t : ℚ) (s : KState) : KState :=
  { s with trace := s.trace ++ [Event.sleep t] }

/-- `self.disconnect()` (kkt.py line 174): record a disconnect event. -/
def disconnectB (s : KState) : KState :=
  { s with trace := s.trace ++ [Event.disconnect] }

/-- `self._read(n)` (kkt.py line 232), i.e. `conn.read(n)`: return the next
scripted chunk truncated to `n` bytes and consume it; an exhausted script
returns nothing (a timeout).  `n` is an `Int` because `BaseKKT.read`
computes a data length by subtraction that can go negative; pyserial then
returns no bytes. -/
def readB (n : Int) (s : KState) : List Nat × KState :=
  match s.inp with
  | [] => ([], s)
  | c :: rest => (c.take n.toNat, { s with inp := rest })

/-- Python `ord` on the result of a 1-byte read: a single byte gives its
value, anything else (in particular the empty string) is a `TypeError`. -/
def ordB (l : List Nat) : Option Nat :=
  match l with
  | [b] => some b
  | _ => none

/-- `get_control_summ` (utils.py lines 135-142): XOR of every byte. -/
def get_control_summ (string : List Nat) : Nat :=
  string.foldl (fun result s => result ^^^ s) 0

/-- Modelled from the spec: `force_bytes` comes from the protocol module,
which is not under src/; the spec treats command parameters as opaque
parameter bytes handed to the dispatcher, so on an already-byte params
string it returns it unchanged. -/
def force_bytes (params : List Nat) : List Nat := params

/-- `BaseKKT.check_state` (kkt.py lines 187-198).  Writes `ENQ`, reads one
byte, on an empty result sleeps `MIN_TIMEOUT` and reads once more.  Returns
`some [NAK]` or `some [ACK]` for those bytes, raises `ConnectionError`
when the (second) read is still empty, and otherwise falls off the end of
the Python function, i.e. returns `None`, modelled as `none`.  The
`check_port` call is not modelled: the channel is assumed open. -/
def check_state (s0 : KState) : Res (Option (List Nat)) :=
  let s1 := writeB [ENQ] s0
  let p1 := readB 1 s1
  let p2 := if p1.1 = [] then readB 1 (sleepB MIN_TIMEOUT p1.2) else p1
  let answer := p2.1
  if answer = [NAK] ∨ answer = [ACK] then (Outcome.ok (some answer), p2.2)
  else if answer = [] then (Outcome.err Err.conn, p2.2)
  else (Outcome.ok none, p2.2)

/-- The waiting loop inside `BaseKKT.check_STX` (kkt.py lines 206-212),
`while not answer and n < MAX_ATTEMPT`, carried here by the remaining
attempt count `fuel = MAX_ATTEMPT - n`.
NOTE on the backoff multiplier: source line 212 reads `timeout *= 1.5z`,
which is not valid Python (a SyntaxError at import time); the multiplier
3/2 used here is the evident intent, documented by the source's own
comment at lines 203-205, which gives the worst-case cumulative wait
12.8746337890625 s = 0.05 * ((3/2)^12 - 1) / (1/2) for the 12 attempts. -/
def check_STX_loop (answer : List Nat) (fuel : Nat) (timeout : ℚ) (s : KState) :
    List Nat × KState :=
  match fuel with
  | 0 => (answer, s)
  | fuel + 1 =>
    if answer = [] then
      let s1 := sleepB timeout s
      let p := readB 1 s1
      check_STX_loop p.1 fuel (timeout * (3/2)) p.2
    else (answer, s)

/-- `BaseKKT.check_STX` (kkt.py lines 200-216): read one byte, wait with
geometric backoff while nothing arrives, succeed exactly on `STX`,
otherwise raise `ConnectionError`. -/
def check_STX (s0 : KState) : Res Bool :=
  let p0 := readB 1 s0
  let p := check_STX_loop p0.1 MAX_ATTEMPT MIN_TIMEOUT p0.2
  if p.1 = [STX] then (Outcome.ok true, p.2)
  else (Outcome.err Err.conn, p.2)

/-- `BaseKKT.check_ACK` (kkt.py lines 225-230). -/
def check_ACK (s0 : KState) : Res Bool :=
  match check_state s0 with
  | (Outcome.err e, s) => (Outcome.err e, s)
  | (Outcome.ok answer, s) => (Outcome.ok (answer = some [ACK]), s)

/-- The `while i < MAX_ATTEMPT and not self.check_ACK()` loop of
`BaseKKT.read` (kkt.py lines 265-267), carried by the remaining attempt
count `fuel = MAX_ATTEMPT - i`; returns the final value of `i`. -/
def wait_ACK_loop (fuel i : Nat) (s : KState) : Res Nat :=
  match fuel with
  | 0 => (Outcome.ok i, s)
  | fuel + 1 =>
    match check_ACK s with
    | (Outcome.err e, s1) => (Outcome.err e, s1)
    | (Outcome.ok b, s1) =>
      if b then (Outcome.ok i, s1) else wait_ACK_loop fuel (i + 1) s1

/-- The `while j < MAX_ATTEMPT and not self.check_STX()` loop of
`BaseKKT.read` (kkt.py lines 274-276), carried by the remaining attempt
count `fuel = MAX_ATTEMPT - j`; `check_STX` only ever returns `true` or
raises, so the recursive branch is dead code, kept faithful. -/
def wait_STX_loop (fuel j : Nat) (s : KState) : Res Nat :=
  match fuel with
  | 0 => (Outcome.ok j, s)
  | fuel + 1 =>
    match check_STX s with
    | (Outcome.err e, s1) => (Outcome.err e, s1)
    | (Outcome.ok b, s1) =>
      if b then (Outcome.ok j, s1) else wait_STX_loop fuel (j + 1) s1

/-- The handshake prologue of `BaseKKT.read` (kkt.py lines 263-273):
`check_state`, then on `NAK` poll `check_ACK` up to `MAX_ATTEMPT` times,
on no answer (`None`) disconnect and raise. -/
def read_handshake (s0 : KState) : Res Unit :=
  match check_state s0 with
  | (Outcome.err e, s) => (Outcome.err e, s)
  | (Outcome.ok answer, s1) =>
    if answer = some [NAK] then
      match wait_ACK_loop MAX_ATTEMPT 0 s1 with
      | (Outcome.err e, s) => (Outcome.err e, s)
      | (Outcome.ok i, s2) =>
        if MAX_ATTEMPT ≤ i then (Outcome.err Err.conn, disconnectB s2)
        else (Outcome.ok (), s2)
    else if answer = none then (Outcome.err Err.conn, disconnectB s1)
    else (Outcome.ok (), s1)

/-- The STX wait of `BaseKKT.read` (kkt.py lines 274-279). -/
def read_wait_STX (s0 : KState) : Res Unit :=
  match wait_STX_loop MAX_ATTEMPT 0 s0 with
  | (Outcome.err e, s) => (Outcome.err e, s)
  | (Outcome.ok j, s1) =>
    if MAX_ATTEMPT ≤ j then (Outcome.err Err.conn, disconnectB s1)
    else (Outcome.ok (), s1)

/-- The decoded response dictionary of `BaseKKT.read`. -/
structure Resp where
  command : List Nat
  error : Nat
  data : List Nat
deriving DecidableEq, Repr

/-- The frame body of `BaseKKT.read` (kkt.py lines 281-312): length byte
(`ord` of a possibly empty read), echoed command, error byte, data sized
by the declared length, the length consistency check, the checksum check,
then `ACK` + flush and the result dictionary (whose `ord(error)` is
evaluated last). -/
def read_frame (command : List Nat) (s0 : KState) : Res Resp :=
  let pL := readB 1 s0
  match ordB pL.1 with
  | none => (Outcome.err Err.typeError, pL.2)
  | some response_length =>
    let command_length := command.length
    let data_length : Int := (response_length : Int) - command_length - 1
    let pC := readB command_length pL.2
    let pE := readB 1 pC.2
    let pD := readB data_length pE.2
    if data_length ≠ (pD.1.length : Int) then
      (Outcome.err (Err.kktLen data_length pD.1.length),
        disconnectB (writeB [NAK] pD.2))
    else
      let pS := readB 1 pD.2
      let control_summ :=
        get_control_summ (response_length :: pC.1 ++ pE.1 ++ pD.1)
      if pS.1 ≠ [control_summ] then
        (Outcome.err (Err.kktSum control_summ pS.1),
          disconnectB (writeB [NAK] pS.2))
      else
        let s6 := flushB (writeB [ACK] pS.2)
        match ordB pE.1 with
        | none => (Outcome.err Err.typeError, s6)
        | some e => (Outcome.ok ⟨pC.1, e, pD.1⟩, s6)

/-- `BaseKKT.read` (kkt.py lines 261-312). -/
def read (command : List Nat) (s0 : KState) : Res Resp :=
  match read_handshake s0 with
  | (Outcome.err e, s) => (Outcome.err e, s)
  | (Outcome.ok _, s1) =>
    match read_wait_STX s1 with
    | (Outcome.err e, s) => (Outcome.err e, s)
    | (Outcome.ok _, s2) => read_frame command s2

/-- `BaseKKT.send` (kkt.py lines 314-328): optional pre-send flush (skipped
when `quick`), then write `STX ++ chr(length) ++ data ++ checksum` in one
write and flush.  No size check exists in the source; the length byte is
`chr(len(data))`, modelled as the code point `data.length`. -/
def send (command : List Nat) (params : Option (List Nat)) (quick : Bool)
    (s0 : KState) : Res Bool :=
  let s1 := if quick then s0 else flushB s0
  let data := command ++ (match params with
    | some p => force_bytes p
    | none => [])
  let length := data.length
  let content := length :: data
  let control_summ := get_control_summ content
  let s2 := flushB (writeB (STX :: content ++ [control_summ]) s1)
  (Outcome.ok true, s2)

/-- `BaseKKT.ask` (kkt.py lines 330-356).  `quick` forces
`disconnect = False` and `sleep = 0`; a `none` params with
`without_password = false` defaults to the configured password; then
`send`, the optional sleep, `read`, the optional disconnect, and a
`KktError` carrying the numeric code when the error byte is non-zero.
`pre_clear` is accepted and ignored, as in the source (its use is
commented out); integer commands are passed already converted to their
single byte, mirroring `chr(command)`. -/
def ask (command : List Nat) (params : Option (List Nat)) (sleep : ℚ)
    (pre_clear without_password disconnect quick : Bool)
    (password : List Nat) (s0 : KState) : Res (List Nat × Nat × List Nat) :=
  let disconnect := if quick then false else disconnect
  let sleep := if quick then 0 else sleep
  let params := if params = none ∧ without_password = false
    then some password else params
  match send command params quick s0 with
  | (Outcome.err e, s) => (Outcome.err e, s)
  | (Outcome.ok _, s1) =>
    let s2 := if sleep ≠ 0 then sleepB sleep s1 else s1
    match read command s2 with
    | (Outcome.err e, s) => (Outcome.err e, s)
    | (Outcome.ok a, s3) =>
      let s4 := if disconnect then disconnectB s3 else s3
      if a.error ≠ 0 then (Outcome.err (Err.kktCode a.error), s4)
      else (Outcome.ok (a.data, a.error, a.command), s4)

/-- UTF-8 encoding of one code point, as `chr(x)` followed by
`.encode('utf-8')` behaves: `none` models the exceptions (`chr` rejects
code points of 0x110000 and above, `encode` rejects surrogates). -/
def utf8_char (x : Nat) : Option (List Nat) :=
  if x < 0x80 then some [x]
  else if x < 0x800 then some [0xC0 + x / 64, 0x80 + x % 64]
  else if 0xD800 ≤ x ∧ x < 0xE000 then none
  else if x < 0x10000 then
    some [0xE0 + x / 4096, 0x80 + x / 64 % 64, 0x80 + x % 64]
  else if x < 0x110000 then
    some [0xF0 + x / 262144, 0x80 + x / 4096 % 64,
      0x80 + x / 64 % 64, 0x80 + x % 64]
  else none

/-- `digits2string` (utils.py lines 145-149):
`''.join([chr(x) for x in digits]).encode('utf-8')`, i.e. the
concatenation of the UTF-8 encodings of the code points; `none` models
the exception path caught by the caller. -/
def digits2string (digits : List Nat) : Option (List Nat) :=
  match digits with
  | [] => some []
  | d :: ds =>
    match utf8_char d, digits2string ds with
    | some c, some rest => some (c ++ rest)
    | _, _ => none

/-- The input type of `password_prapare`: an integer or a list/tuple of
values (negative entries and non-integers would take the same `TypeError`
path as any other `chr` failure and are not modelled separately). -/
inductive PwdInput
  | int (n : Int)
  | list (ds : List Nat)
deriving DecidableEq, Repr

/-- The exceptions of `password_prapare`. -/
inductive PwdErr
  | typeErr
  | valueErr
deriving DecidableEq, Repr

/-- `int4.pack` (utils.py lines 36-86): `struct.pack('i', n)` is the 4-byte
little-endian two's complement encoding, and `post_value` with
`length = 4` leaves it unchanged. -/
def int4_pack (n : Int) : List Nat :=
  let m := (n % (2 ^ 32 : Int)).toNat
  [m % 256, m / 256 % 256, m / 65536 % 256, m / 16777216 % 256]

/-- `password_prapare` (utils.py lines 152-171): a list/tuple is cut to its
first 4 entries and passed through `digits2string` (exceptions become
`TypeError`); an integer above 9999 is a `ValueError`; any other integer
is packed into 4 bytes. -/
def password_prapare (password : PwdInput) : Except PwdErr (List Nat) :=
  match password with
  | PwdInput.list ds =>
    match digits2string (ds.take 4) with
    | some bs => Except.ok bs
    | none => Except.error PwdErr.typeErr
  | PwdInput.int n =>
    if n > 9999 then Except.error PwdErr.valueErr
    else Except.ok (int4_pack n)

/-- The write events of a trace, in order. -/
def writesOf (tr : List Event) : List (List Nat) :=
  tr.filterMap (fun e => match e with
    | Event.write bs => some bs
    | _ => none)

/-- The sleep durations of a trace, in order. -/
def sleepsOf (tr : List Event) : List ℚ :=
  tr.filterMap (fun e => match e with
    | Event.sleep t => some t
    | _ => none)

/-- How many times a given event occurs in a trace. -/
def countEvent (tr : List Event) (e : Event) : Nat :=
  (tr.filter (fun x => x = e)).length

end ShtrihM

namespace ShtrihM

/-! Evaluation lemmas for the handshake and frame scenarios used by the
claim theorems. -/

lemma check_state_ACK (rest : List (List Nat)) (tr : List Event) :
    check_state ⟨[ACK] :: rest, tr⟩ =
      (Outcome.ok (some [ACK]), ⟨rest, tr ++ [Event.write [ENQ]]⟩) := by
  simp [check_state, readB, writeB, ACK, NAK, ENQ]

lemma check_state_NAK (rest : List (List Nat)) (tr : List Event) :
    check_state ⟨[NAK] :: rest, tr⟩ =
      (Outcome.ok (some [NAK]), ⟨rest, tr ++ [Event.write [ENQ]]⟩) := by
  simp [check_state, readB, writeB, ACK, NAK, ENQ]

lemma read_handshake_ACK (rest : List (List Nat)) (tr : List Event) :
    read_handshake ⟨[ACK] :: rest, tr⟩ =
      (Outcome.ok (), ⟨rest, tr ++ [Event.write [ENQ]]⟩) := by
  simp [read_handshake, check_state, readB, writeB, ACK, NAK, ENQ]

lemma read_handshake_NAK_ACK (rest : List (List Nat)) (tr : List Event) :
    read_handshake ⟨[NAK] :: [ACK] :: rest, tr⟩ =
      (Outcome.ok (),
        ⟨rest, tr ++ [Event.write [ENQ], Event.write [ENQ]]⟩) := by
  simp [read_handshake, check_state, readB, writeB, wait_ACK_loop,
    check_ACK, ACK, NAK, ENQ, MAX_ATTEMPT]

lemma read_wait_STX_STX (rest : List (List Nat)) (tr : List Event) :
    read_wait_STX ⟨[STX] :: rest, tr⟩ = (Outcome.ok (), ⟨rest, tr⟩) := by
  simp [read_wait_STX, wait_STX_loop, check_STX, check_STX_loop, readB,
    STX, MAX_ATTEMPT]

end ShtrihM

namespace ShtrihM

lemma read_frame_valid (command data : List Nat) (eb : Nat)
    (rest : List (List Nat)) (tr : List Event) :
    read_frame command
      ⟨[command.length + 1 + data.length] :: command :: [eb] :: data ::
          [get_control_summ ((command.length + 1 + data.length) ::
            command ++ [eb] ++ data)] :: rest, tr⟩ =
      (Outcome.ok ⟨command, eb, data⟩,
        ⟨rest, tr ++ [Event.write [ACK], Event.flush]⟩) := by
  have ht : (((command.length : Int) + 1 + data.length).toNat -
      command.length - 1) = data.length := by omega
  have hI : ((command.length : Int) + 1 + data.length -
      command.length - 1) = (data.length : Int) := by ring
  simp [read_frame, readB, ordB, writeB, flushB, ht, hI]

lemma read_frame_len_mismatch (command ce : List Nat) (dlen eb : Nat)
    (db : List Nat) (rest : List (List Nat)) (tr : List Event)
    (h : db.length < dlen) :
    read_frame command
      ⟨[command.length + 1 + dlen] :: ce :: [eb] :: db :: rest, tr⟩ =
      (Outcome.err (Err.kktLen (dlen : Int) db.length),
        ⟨rest, tr ++ [Event.write [NAK], Event.disconnect]⟩) := by
  have ht : (((command.length : Int) + 1 + dlen).toNat -
      command.length - 1) = dlen := by omega
  have hI : ((command.length : Int) + 1 + dlen -
      command.length - 1) = (dlen : Int) := by ring
  have htake : db.take dlen = db := List.take_of_length_le h.le
  have hne : ¬(dlen = db.length) := by omega
  simp [read_frame, readB, ordB, writeB, disconnectB, ht, hI, htake, hne]

lemma read_frame_sum_mismatch (command : List Nat) (eb : Nat)
    (db cb : List Nat) (rest : List (List Nat)) (tr : List Event)
    (h : cb.take 1 ≠ [get_control_summ ((command.length + 1 + db.length) ::
      command ++ [eb] ++ db)]) :
    read_frame command
      ⟨[command.length + 1 + db.length] :: command :: [eb] :: db ::
          cb :: rest, tr⟩ =
      (Outcome.err (Err.kktSum
          (get_control_summ ((command.length + 1 + db.length) ::
            command ++ [eb] ++ db)) (cb.take 1)),
        ⟨rest, tr ++ [Event.write [NAK], Event.disconnect]⟩) := by
  have ht : (((command.length : Int) + 1 + db.length).toNat -
      command.length - 1) = db.length := by omega
  have hI : ((command.length : Int) + 1 + db.length -
      command.length - 1) = (db.length : Int) := by ring
  have h2 := h
  simp only [List.append_assoc, List.cons_append, List.singleton_append,
    List.nil_append] at h2
  simp [read_frame, readB, ordB, writeB, disconnectB, ht, hI, h, h2]

end ShtrihM

namespace ShtrihM

lemma send_some (command p : List Nat) (q : Bool) (s : KState) :
    send command (some p) q s =
      (Outcome.ok true, flushB (writeB
        (STX :: (command.length + p.length) :: (command ++ p) ++
          [get_control_summ ((command.length + p.length) :: (command ++ p))])
        (if q then s else flushB s))) := by
  simp [send, force_bytes]

lemma read_valid_ACK (command data : List Nat) (eb : Nat)
    (rest : List (List Nat)) (tr : List Event) :
    read command
      ⟨[ACK] :: [STX] :: [command.length + 1 + data.length] :: command ::
          [eb] :: data ::
          [get_control_summ ((command.length + 1 + data.length) ::
            command ++ [eb] ++ data)] :: rest, tr⟩ =
      (Outcome.ok ⟨command, eb, data⟩,
        ⟨rest, tr ++ [Event.write [ENQ], Event.write [ACK],
          Event.flush]⟩) := by
  simp only [read, read_handshake_ACK, read_wait_STX_STX, read_frame_valid]
  simp

lemma read_valid_NAK_ACK (command data : List Nat) (eb : Nat)
    (rest : List (List Nat)) (tr : List Event) :
    read command
      ⟨[NAK] :: [ACK] :: [STX] :: [command.length + 1 + data.length] ::
          command :: [eb] :: data ::
          [get_control_summ ((command.length + 1 + data.length) ::
            command ++ [eb] ++ data)] :: rest, tr⟩ =
      (Outcome.ok ⟨command, eb, data⟩,
        ⟨rest, tr ++ [Event.write [ENQ], Event.write [ENQ],
          Event.write [ACK], Event.flush]⟩) := by
  simp only [read, read_handshake_NAK_ACK, read_wait_STX_STX,
    read_frame_valid]
  simp

lemma read_valid_ACK_norm (command data : List Nat) (eb : Nat)
    (rest : List (List Nat)) (tr : List Event) :
    read command
      ⟨[ACK] :: [STX] :: [command.length + 1 + data.length] :: command ::
          [eb] :: data ::
          [get_control_summ ((command.length + 1 + data.length) ::
            (command ++ eb :: data))] :: rest, tr⟩ =
      (Outcome.ok ⟨command, eb, data⟩,
        ⟨rest, tr ++ [Event.write [ENQ], Event.write [ACK],
          Event.flush]⟩) := by
  have h := read_valid_ACK command data eb rest tr
  simpa using h

lemma read_valid_NAK_ACK_norm (command data : List Nat) (eb : Nat)
    (rest : List (List Nat)) (tr : List Event) :
    read command
      ⟨[NAK] :: [ACK] :: [STX] :: [command.length + 1 + data.length] ::
          command :: [eb] :: data ::
          [get_control_summ ((command.length + 1 + data.length) ::
            (command ++ eb :: data))] :: rest, tr⟩ =
      (Outcome.ok ⟨command, eb, data⟩,
        ⟨rest, tr ++ [Event.write [ENQ], Event.write [ENQ],
          Event.write [ACK], Event.flush]⟩) := by
  have h := read_valid_NAK_ACK command data eb rest tr
  simpa using h

end ShtrihM

namespace ShtrihM

/-- C1: for every opcode byte string `o` and params byte string `p` (their
combined length fitting the one-byte length field), `send` leaves the
pending input untouched and writes to the channel exactly the frame
`STX ++ length ++ o ++ p ++ checksum`, where `length` is the single byte
`o.length + p.length` and the checksum is the XOR of every byte from the
length byte through the end of `p`. -/
theorem C1_send_frame (o p : List Nat) (q : Bool) (inp : List (List Nat))
    (tr : List Event) (hfit : o.length + p.length ≤ 255) :
    (send o (some p) q ⟨inp, tr⟩).1 = Outcome.ok true ∧
    (send o (some p) q ⟨inp, tr⟩).2.inp = inp ∧
    writesOf (send o (some p) q ⟨inp, tr⟩).2.trace =
      writesOf tr ++ [STX :: (o.length + p.length) :: (o ++ p) ++
        [get_control_summ ((o.length + p.length) :: (o ++ p))]] := by
  cases q <;>
    simp [send_some, writesOf, writeB, flushB, List.filterMap_append]

/-- Closed instance of `C1_send_frame` at a concrete opcode and params. -/
theorem C1_send_frame_witness :
    (([0x1F] : List Nat).length + ([1, 2] : List Nat).length ≤ 255) ∧
    ((send [0x1F] (some [1, 2]) false ⟨[], []⟩).1 = Outcome.ok true ∧
     (send [0x1F] (some [1, 2]) false ⟨[], []⟩).2.inp = [] ∧
     writesOf (send [0x1F] (some [1, 2]) false ⟨[], []⟩).2.trace =
       writesOf [] ++
         [STX :: (([0x1F] : List Nat).length + ([1, 2] : List Nat).length) ::
           (([0x1F] : List Nat) ++ [1, 2]) ++
           [get_control_summ
             ((([0x1F] : List Nat).length + ([1, 2] : List Nat).length) ::
               (([0x1F] : List Nat) ++ [1, 2]))]]) :=
  ⟨by decide, C1_send_frame [0x1F] [1, 2] false [] [] (by decide)⟩

/-- C2: simulating `check_STX` with permanently empty reads (the intended
code, see the note on `check_STX_loop`: the shipped source line 212 is a
SyntaxError) sleeps exactly `MAX_ATTEMPT = 12` times, the durations start
at `MIN_TIMEOUT = 0.05` growing by the factor 3/2, their total equals
`MIN_TIMEOUT * (1.5^12 - 1) / 0.5` exactly, and a connection-level error
is raised. -/
theorem C2_check_STX_backoff :
    (check_STX ⟨[], []⟩).1 = Outcome.err Err.conn ∧
    (sleepsOf (check_STX ⟨[], []⟩).2.trace).length = 12 ∧
    (sleepsOf (check_STX ⟨[], []⟩).2.trace).sum =
      MIN_TIMEOUT * ((3/2 : ℚ) ^ 12 - 1) / (1/2) ∧
    (sleepsOf (check_STX ⟨[], []⟩).2.trace).headD 0 = MIN_TIMEOUT := by
  refine ⟨by decide, by decide, ?_, ?_⟩ <;>
    norm_num [check_STX, check_STX_loop, readB, sleepB, sleepsOf,
      MIN_TIMEOUT, MAX_ATTEMPT, List.filterMap_cons]

/-- C10: when, after `STX` has been received, the read of the length byte
times out (returns nothing), `BaseKKT.read` raises Python's own
`TypeError` from `ord` of an empty value: no `NAK` is written, no
disconnect happens, and none of the library's own error types is used —
the trace gains only the handshake `ENQ` write. -/
theorem C10_read_midframe_typeerror (command : List Nat)
    (rest : List (List Nat)) (tr : List Event) :
    read command ⟨[ACK] :: [STX] :: [] :: rest, tr⟩ =
      (Outcome.err Err.typeError, ⟨rest, tr ++ [Event.write [ENQ]]⟩) := by
  simp only [read, read_handshake_ACK, read_wait_STX_STX]
  simp [read_frame, readB, ordB]

end ShtrihM

namespace ShtrihM

/-- C3: during `BaseKKT.read`, if the declared length implies more data
bytes than are actually received (first conjunct), or the received
checksum byte differs from the XOR recomputed over the length byte,
echoed opcode, error byte and data (second conjunct), then `read` writes
`NAK` exactly once, disconnects, and raises a `KktError`; the final trace
ends at the disconnect (no further writes) and the remaining input is
untouched (no further reads), so the exchange is never retried. -/
theorem C3_read_mismatch_nak (command ce : List Nat) (dlen eb : Nat)
    (db cb : List Nat) (rest : List (List Nat)) (tr : List Event) :
    (db.length < dlen →
      read command ⟨[ACK] :: [STX] :: [command.length + 1 + dlen] :: ce ::
          [eb] :: db :: rest, tr⟩ =
        (Outcome.err (Err.kktLen (dlen : Int) db.length),
          ⟨rest, tr ++ [Event.write [ENQ], Event.write [NAK],
            Event.disconnect]⟩)) ∧
    (cb.take 1 ≠ [get_control_summ ((command.length + 1 + db.length) ::
        command ++ [eb] ++ db)] →
      read command ⟨[ACK] :: [STX] :: [command.length + 1 + db.length] ::
          command :: [eb] :: db :: cb :: rest, tr⟩ =
        (Outcome.err (Err.kktSum
            (get_control_summ ((command.length + 1 + db.length) ::
              command ++ [eb] ++ db)) (cb.take 1)),
          ⟨rest, tr ++ [Event.write [ENQ], Event.write [NAK],
            Event.disconnect]⟩)) := by
  constructor
  · intro h
    simp only [read, read_handshake_ACK, read_wait_STX_STX]
    rw [read_frame_len_mismatch command ce dlen eb db rest
      (tr ++ [Event.write [ENQ]]) h]
    simp
  · intro h
    simp only [read, read_handshake_ACK, read_wait_STX_STX]
    rw [read_frame_sum_mismatch command eb db cb rest
      (tr ++ [Event.write [ENQ]]) h]
    simp

/-- Closed instance of `C3_read_mismatch_nak`: a declared length of 5 with
an empty data read, and a corrupted checksum byte on a well-sized frame. -/
theorem C3_read_mismatch_nak_witness :
    (([] : List Nat).length < 3 ∧
      read [1] ⟨[ACK] :: [STX] :: [([1] : List Nat).length + 1 + 3] ::
          [1] :: [0] :: [] :: [], []⟩ =
        (Outcome.err (Err.kktLen (3 : Int) ([] : List Nat).length),
          ⟨[], [Event.write [ENQ], Event.write [NAK],
            Event.disconnect]⟩)) ∧
    (([9] : List Nat).take 1 ≠
        [get_control_summ ((([1] : List Nat).length + 1 +
          ([] : List Nat).length) :: ([1] : List Nat) ++ [0] ++ [])] ∧
      read [1] ⟨[ACK] :: [STX] ::
          [([1] : List Nat).length + 1 + ([] : List Nat).length] ::
          [1] :: [0] :: [] :: [9] :: [], []⟩ =
        (Outcome.err (Err.kktSum
            (get_control_summ ((([1] : List Nat).length + 1 +
              ([] : List Nat).length) :: ([1] : List Nat) ++ [0] ++ []))
            (([9] : List Nat).take 1)),
          ⟨[], [Event.write [ENQ], Event.write [NAK],
            Event.disconnect]⟩)) :=
  ⟨⟨by decide, (C3_read_mismatch_nak [1] [1] 3 0 [] [9] [] []).1 (by decide)⟩,
   ⟨by decide, (C3_read_mismatch_nak [1] [1] 3 0 [] [9] [] []).2 (by decide)⟩⟩

end ShtrihM

namespace ShtrihM

/-- C4: for a validly framed response (correct declared length and
checksum) carrying error byte `eb`, `ask` raises a `KktError` carrying the
numeric code `eb` if and only if `eb` is non-zero; when `eb = 0` it
returns the triple `(data, 0, echoed opcode)` without raising. -/
theorem C4_ask_error_byte (command p data : List Nat) (eb : Nat)
    (pc wp dsc q : Bool) (pwd : List Nat) (tr : List Event) :
    ((ask command (some p) 0 pc wp dsc q pwd
        ⟨[ACK] :: [STX] :: [command.length + 1 + data.length] :: command ::
          [eb] :: data ::
          [get_control_summ ((command.length + 1 + data.length) ::
            command ++ [eb] ++ data)] :: [], tr⟩).1 =
      Outcome.err (Err.kktCode eb) ↔ eb ≠ 0) ∧
    (eb = 0 →
      (ask command (some p) 0 pc wp dsc q pwd
        ⟨[ACK] :: [STX] :: [command.length + 1 + data.length] :: command ::
          [eb] :: data ::
          [get_control_summ ((command.length + 1 + data.length) ::
            command ++ [eb] ++ data)] :: [], tr⟩).1 =
      Outcome.ok (data, 0, command)) := by
  cases q <;> by_cases heb : eb = 0 <;>
    simp [ask, send_some, writeB, flushB, read_valid_ACK_norm, heb]

/-- Closed instance of `C4_ask_error_byte` at error bytes 1 and 0. -/
theorem C4_ask_error_byte_witness :
    ((ask [2] (some [1, 0, 0, 0]) 0 true false true false [9]
        ⟨[ACK] :: [STX] :: [([2] : List Nat).length + 1 +
            ([7] : List Nat).length] :: [2] :: [1] :: [7] ::
          [get_control_summ ((([2] : List Nat).length + 1 +
            ([7] : List Nat).length) :: ([2] : List Nat) ++ [1] ++ [7])] ::
          [], []⟩).1 = Outcome.err (Err.kktCode 1)) ∧
    ((ask [2] (some [1, 0, 0, 0]) 0 true false true false [9]
        ⟨[ACK] :: [STX] :: [([2] : List Nat).length + 1 +
            ([7] : List Nat).length] :: [2] :: [0] :: [7] ::
          [get_control_summ ((([2] : List Nat).length + 1 +
            ([7] : List Nat).length) :: ([2] : List Nat) ++ [0] ++ [7])] ::
          [], []⟩).1 = Outcome.ok ([7], 0, [2])) :=
  ⟨(C4_ask_error_byte [2] [1, 0, 0, 0] [7] 1 true false true false
      [9] []).1.mpr (by decide),
   (C4_ask_error_byte [2] [1, 0, 0, 0] [7] 0 true false true false
      [9] []).2 rfl⟩

/-- C5: on the handshake sequence `NAK, ACK, STX, <valid frame>` with a
zero error byte, `ask` returns the decoded data and error code without
raising, and exactly one `ACK` byte is written back to the channel during
the whole exchange. -/
theorem C5_ask_nak_ack_flow (command p data : List Nat)
    (pc wp dsc : Bool) (pwd : List Nat) :
    (ask command (some p) 0 pc wp dsc false pwd
        ⟨[NAK] :: [ACK] :: [STX] ::
          [command.length + 1 + data.length] :: command :: [0] :: data ::
          [get_control_summ ((command.length + 1 + data.length) ::
            command ++ [0] ++ data)] :: [], []⟩).1 =
      Outcome.ok (data, 0, command) ∧
    countEvent (ask command (some p) 0 pc wp dsc false pwd
        ⟨[NAK] :: [ACK] :: [STX] ::
          [command.length + 1 + data.length] :: command :: [0] :: data ::
          [get_control_summ ((command.length + 1 + data.length) ::
            command ++ [0] ++ data)] :: [], []⟩).2.trace
      (Event.write [ACK]) = 1 := by
  cases dsc <;>
    · simp [ask, send_some, read_valid_NAK_ACK_norm, writeB, flushB]
      simp [countEvent, writeB, flushB, disconnectB, List.filter_append,
        ACK, ENQ, NAK, STX]

end ShtrihM

namespace ShtrihM

/-- C6: `quick = true` forces the sleep parameter to 0 and the disconnect
flag to false (first equation), and the only remaining difference between
a quick and a non-quick exchange is the pre-send flush: the non-quick run
from `s0` equals the quick run started after a single flush (second
equation) — every other step is unchanged. -/
theorem C6_ask_quick (command : List Nat) (params : Option (List Nat))
    (sleep : ℚ) (pc wp dsc : Bool) (pwd : List Nat) (s0 : KState) :
    ask command params sleep pc wp dsc true pwd s0 =
      ask command params 0 pc wp false true pwd s0 ∧
    ask command params 0 pc wp false false pwd s0 =
      ask command params 0 pc wp false true pwd (flushB s0) :=
  ⟨rfl, rfl⟩

/-- C7 counterexample: a 2-element list is accepted by `password_prapare`
but the returned credential has 2 bytes, not 4. -/
theorem C7_password_counterexample :
    password_prapare (PwdInput.list [1, 2]) = Except.ok [1, 2] ∧
    ([1, 2] : List Nat).length = 2 :=
  ⟨rfl, rfl⟩

lemma digits2string_small (l : List Nat) (h : ∀ x ∈ l, x < 128) :
    digits2string l = some l := by
  induction l with
  | nil => rfl
  | cons a l ih =>
    have ha : a < 128 := h a (List.mem_cons_self a l)
    have ih' := ih (fun x hx => h x (List.mem_cons_of_mem a hx))
    simp [digits2string, utf8_char, ha, ih']

/-- C7 amended: an integer from 0 to 9999 yields a credential of exactly
4 bytes and an integer above 9999 is rejected with an error; for a
list/tuple the returned credential is not always 4 bytes (the accepted
input `[1, 2]` yields 2 bytes, see the counterexample), but it is exactly
4 bytes whenever the list has at least 4 entries all below 0x80. -/
theorem C7_password_amended :
    (∀ n : Int, 0 ≤ n → n ≤ 9999 →
      password_prapare (PwdInput.int n) = Except.ok (int4_pack n) ∧
      (int4_pack n).length = 4) ∧
    (∀ n : Int, 9999 < n →
      password_prapare (PwdInput.int n) = Except.error PwdErr.valueErr) ∧
    (∀ ds : List Nat, 4 ≤ ds.length → (∀ x ∈ ds.take 4, x < 128) →
      password_prapare (PwdInput.list ds) = Except.ok (ds.take 4) ∧
      (ds.take 4).length = 4) := by
  refine ⟨fun n h0 h9 => ⟨?_, rfl⟩, fun n h9 => ?_, fun ds hlen hsmall => ⟨?_, ?_⟩⟩
  · simp [password_prapare, not_lt.mpr h9]
  · simp [password_prapare, h9]
  · simp [password_prapare, digits2string_small (ds.take 4) hsmall]
  · simp [List.length_take]
    omega

/-- Closed instance of `C7_password_amended` at 30, 10000 and a 5-element
list. -/
theorem C7_password_amended_witness :
    (password_prapare (PwdInput.int 30) = Except.ok (int4_pack 30) ∧
      (int4_pack 30).length = 4) ∧
    password_prapare (PwdInput.int 10000) = Except.error PwdErr.valueErr ∧
    (password_prapare (PwdInput.list [1, 2, 3, 4, 5]) =
      Except.ok (([1, 2, 3, 4, 5] : List Nat).take 4) ∧
      (([1, 2, 3, 4, 5] : List Nat).take 4).length = 4) :=
  ⟨C7_password_amended.1 30 (by decide) (by decide),
   C7_password_amended.2.1 10000 (by decide),
   C7_password_amended.2.2 [1, 2, 3, 4, 5] (by decide) (by decide)⟩

end ShtrihM

namespace ShtrihM

set_option maxRecDepth 8192 in
/-- C8 counterexample: a 254-byte payload (1-byte opcode plus 253 params
bytes, exceeding 253) is not rejected: `send` succeeds and writes the
full frame with length byte 254 — there is no size check in the code. -/
theorem C8_send_no_size_check_counterexample :
    (send [1] (some (List.replicate 253 0)) false ⟨[], []⟩).1 =
      Outcome.ok true ∧
    writesOf (send [1] (some (List.replicate 253 0)) false ⟨[], []⟩).2.trace
      = [(2 :: 254 :: (1 :: List.replicate 253 0)) ++ [255]] := by
  constructor
  · rfl
  · rfl

/-- C8 amended: `send` performs no size check; for any opcode and params
whose combined length exceeds 253 (up to the 255 a length byte can hold),
it succeeds and writes the complete, untruncated frame with that length
byte, raising no size-violation error. -/
theorem C8_send_oversize_amended (o p : List Nat) (inp : List (List Nat))
    (tr : List Event) (hbig : 253 < o.length + p.length)
    (hfit : o.length + p.length ≤ 255) :
    (send o (some p) false ⟨inp, tr⟩).1 = Outcome.ok true ∧
    writesOf (send o (some p) false ⟨inp, tr⟩).2.trace =
      writesOf tr ++ [STX :: (o.length + p.length) :: (o ++ p) ++
        [get_control_summ ((o.length + p.length) :: (o ++ p))]] := by
  simp [send_some, writesOf, writeB, flushB, List.filterMap_append]

set_option maxRecDepth 8192 in
/-- Closed instance of `C8_send_oversize_amended` at a 254-byte payload. -/
theorem C8_send_oversize_amended_witness :
    (253 < ([2] : List Nat).length + (List.replicate 253 7).length) ∧
    (([2] : List Nat).length + (List.replicate 253 7).length ≤ 255) ∧
    ((send [2] (some (List.replicate 253 7)) false ⟨[], []⟩).1 =
      Outcome.ok true ∧
    writesOf (send [2] (some (List.replicate 253 7)) false ⟨[], []⟩).2.trace
      = writesOf [] ++
        [STX :: (([2] : List Nat).length + (List.replicate 253 7).length) ::
          (([2] : List Nat) ++ List.replicate 253 7) ++
          [get_control_summ
            ((([2] : List Nat).length + (List.replicate 253 7).length) ::
              (([2] : List Nat) ++ List.replicate 253 7))]]) :=
  ⟨by simp, by simp, C8_send_oversize_amended [2] (List.replicate 253 7)
    [] [] (by simp) (by simp)⟩

/-- C9 counterexample: a received byte that is neither `ACK` nor `NAK`
(here `0x00`) makes `check_state` return Python's `None` — it neither
returns `ACK`, nor returns `NAK`, nor raises: a fourth outcome the claim
rules out. -/
theorem C9_check_state_counterexample :
    check_state ⟨[[0]], []⟩ =
      (Outcome.ok none, ⟨[], [Event.write [ENQ]]⟩) ∧
    (check_state ⟨[[0]], []⟩).1 ≠ Outcome.ok (some [ACK]) ∧
    (check_state ⟨[[0]], []⟩).1 ≠ Outcome.ok (some [NAK]) ∧
    (check_state ⟨[[0]], []⟩).1 ≠ Outcome.err Err.conn := by
  refine ⟨rfl, by decide, by decide, by decide⟩

/-- C9 amended: `check_state` returns `ACK` or `NAK` when such a byte
arrives, raises a connection-level error exactly when both reads return
no byte, and returns `None` for any other received byte — a fourth
outcome the original claim did not admit. -/
theorem C9_check_state_amended (s0 : KState) :
    ((check_state s0).1 = Outcome.ok (some [ACK]) ∨
     (check_state s0).1 = Outcome.ok (some [NAK]) ∨
     (check_state s0).1 = Outcome.ok none ∨
     (check_state s0).1 = Outcome.err Err.conn) ∧
    ((check_state s0).1 = Outcome.err Err.conn ↔
      (s0.inp.headD []).take 1 = [] ∧
      ((s0.inp.drop 1).headD []).take 1 = []) := by
  obtain ⟨inp, tr⟩ := s0
  match inp with
  | [] =>
    refine ⟨?_, ?_⟩ <;> simp [check_state, readB, writeB, sleepB]
  | c :: rest =>
    by_cases hc : c.take 1 = []
    · match rest with
      | [] =>
        refine ⟨?_, ?_⟩ <;> simp [check_state, readB, writeB, sleepB, hc]
      | c2 :: rest2 =>
        by_cases h2 : c2.take 1 = [NAK] ∨ c2.take 1 = [ACK]
        · rcases h2 with h2 | h2 <;>
            refine ⟨?_, ?_⟩ <;>
            simp [check_state, readB, writeB, sleepB, hc, h2, NAK, ACK]
        · by_cases hc2 : c2.take 1 = []
          · refine ⟨?_, ?_⟩ <;>
              simp [check_state, readB, writeB, sleepB, hc, hc2]
          · refine ⟨?_, ?_⟩ <;>
              simp [check_state, readB, writeB, sleepB, hc, hc2, h2]
    · by_cases h1 : c.take 1 = [NAK] ∨ c.take 1 = [ACK]
      · rcases h1 with h1 | h1 <;>
          refine ⟨?_, ?_⟩ <;>
          simp [check_state, readB, writeB, sleepB, hc, h1, NAK, ACK]
      · refine ⟨?_, ?_⟩ <;>
          simp [check_state, readB, writeB, sleepB, hc, h1]

end ShtrihM
